import Mathlib

/-!
Verification of the iteration-level training controller of the
mlcommons-hpc openfold benchmark (files `train.py` and
`openfold/lr_scheduler.py`).

The Python code is shallowly embedded: machine integers of the CLI are
modelled by `Int` (Python integers are unbounded; Python `%` with a
positive divisor agrees with `Int.emod`), iteration counters by `Nat`,
and Python floats by `ℚ` (the learning-rate arithmetic is exact decimal
arithmetic at the scale used by the schedule, and every claim we settle
about it is robust to this idealization).  Statement-level effects of the
training loop (optimizer calls, collectives, checkpoint writes) are
embedded as a trace of events so that cadence claims become statements
about which events an iteration emits and in which order.
-/

/-! ## Cadence validation (train.py, parse_args, lines 265-281) -/

/-- Arguments of `parse_args` that take part in the cadence checks, in the
order they are declared by `argparse` in `train.py`. -/
structure TrainArgs where
  num_train_iters : Int
  log_every_iters : Int
  checkpoint_every_iters : Int
  val_every_iters : Int
  warmup_lr_iters : Int
  gradient_accumulation_iters : Int
  deriving DecidableEq

/-- Direct translation of the assert block at the end of `parse_args`
(train.py lines 266-280): the conjunction of all asserted conditions, so
that `parse_args` succeeds on `a` exactly when this is `true`.
Python `x % y` with `y > 0` agrees with `Int.emod`; every modulus in the
guarded checks is positive at the point it is used, and an accumulation
value below 1 already falsifies the conjunction. -/
def parse_args_cadence_ok (a : TrainArgs) : Bool :=
  -- saving checkpoints must coincide with validation:
  ((!(decide (0 < a.checkpoint_every_iters)))
      || (a.val_every_iters % a.checkpoint_every_iters == 0))
  -- saving logs must coincide with validation and checkpoints:
  && ((!(decide (0 < a.log_every_iters)))
      || ((a.val_every_iters % a.log_every_iters == 0)
          && ((!(decide (0 < a.checkpoint_every_iters)))
              || (a.checkpoint_every_iters % a.log_every_iters == 0))))
  -- everything must be divisible by gradient accumulation length:
  && decide (1 ≤ a.gradient_accumulation_iters)
  && (a.num_train_iters % a.gradient_accumulation_iters == 0)
  && (a.val_every_iters % a.gradient_accumulation_iters == 0)
  && (a.checkpoint_every_iters % a.gradient_accumulation_iters == 0)
  && (a.log_every_iters % a.gradient_accumulation_iters == 0)
  && (a.warmup_lr_iters % a.gradient_accumulation_iters == 0)

/-- Helper for the claim-side invariant: an interval is exempt from the
accumulation-divisibility constraint when it is non-positive (disabled). -/
def intervalSatisfiesAccum (x m : Int) : Bool :=
  (!(decide (0 < x))) || (x % m == 0)

/-- Cadence invariant exactly as claim C1 words it: every non-warmup
interval (num_train, val_every, checkpoint_every, log_every) is an exact
multiple of the accumulation length, val_every is a multiple of
checkpoint_every and of log_every when those are enabled, and a
non-positive value disables an interval, exempting it from its
constraints. -/
def claimCadenceInvariant (a : TrainArgs) : Bool :=
  intervalSatisfiesAccum a.num_train_iters a.gradient_accumulation_iters
  && intervalSatisfiesAccum a.val_every_iters a.gradient_accumulation_iters
  && intervalSatisfiesAccum a.checkpoint_every_iters a.gradient_accumulation_iters
  && intervalSatisfiesAccum a.log_every_iters a.gradient_accumulation_iters
  && ((!(decide (0 < a.checkpoint_every_iters)))
      || (a.val_every_iters % a.checkpoint_every_iters == 0))
  && ((!(decide (0 < a.log_every_iters)))
      || (a.val_every_iters % a.log_every_iters == 0))

/-- Cadence invariant as amended: accumulation length is at least 1; all
six configured interval arguments, the warm-up length included and the
disabled ones included, leave remainder 0 modulo the accumulation length
(under the nonnegative-remainder semantics of Python); when checkpointing
is enabled val_every is a multiple of checkpoint_every; when logging is
enabled val_every is a multiple of log_every, and checkpoint_every is a
multiple of log_every whenever checkpointing is also enabled. -/
def amendedCadenceInvariant (a : TrainArgs) : Bool :=
  decide (1 ≤ a.gradient_accumulation_iters)
  && ([a.num_train_iters, a.val_every_iters, a.checkpoint_every_iters,
       a.log_every_iters, a.warmup_lr_iters].all
        (fun x => x % a.gradient_accumulation_iters == 0))
  && ((!(decide (0 < a.checkpoint_every_iters)))
      || (a.val_every_iters % a.checkpoint_every_iters == 0))
  && ((!(decide (0 < a.log_every_iters)))
      || (a.val_every_iters % a.log_every_iters == 0))
  && ((!(decide (0 < a.log_every_iters)) || !(decide (0 < a.checkpoint_every_iters)))
      || (a.checkpoint_every_iters % a.log_every_iters == 0))

/-- The config the spec says the validator rejects: val_every=40,
checkpoint_every=7, all remaining arguments at their CLI defaults. -/
def rejectExampleArgs : TrainArgs :=
  { num_train_iters := 2000, log_every_iters := -1, checkpoint_every_iters := 7,
    val_every_iters := 40, warmup_lr_iters := 0, gradient_accumulation_iters := 1 }

/-- The config the spec says the validator accepts: val_every=40,
checkpoint_every=20, accumulation_iters=4, log_every=4. -/
def acceptExampleArgs : TrainArgs :=
  { num_train_iters := 2000, log_every_iters := 4, checkpoint_every_iters := 20,
    val_every_iters := 40, warmup_lr_iters := 0, gradient_accumulation_iters := 4 }

/-- A config on which the claimed invariant and the implemented checks
disagree: logging disabled with log_every = -1 (the CLI default) and
accumulation length 4.  The claim exempts the disabled interval, but the
code asserts log_every % accumulation == 0 unconditionally and
(-1) % 4 = 3 in Python. -/
def defaultLogArgs : TrainArgs :=
  { num_train_iters := 2000, log_every_iters := -1, checkpoint_every_iters := 0,
    val_every_iters := 40, warmup_lr_iters := 0, gradient_accumulation_iters := 4 }

/-! ## Learning-rate schedule (openfold/lr_scheduler.py) -/

/-- Translation of `set_learning_rate`: write the given value into the
lr field of every parameter group of the optimizer. -/
def set_learning_rate (paramGroups : List ℚ) (lrValue : ℚ) : List ℚ :=
  paramGroups.map (fun _ => lrValue)

/-- Constructor arguments of `AlphaFoldLRScheduler`. -/
structure AlphaFoldLRScheduler where
  init_lr : ℚ
  final_lr : ℚ
  warmup_lr_length : Nat
  init_lr_length : Nat
  deriving DecidableEq

/-- Mutable state owned by the scheduler together with the optimizer
parameter groups it writes into. -/
structure LRSchedulerState where
  prevLrValue : Option ℚ
  paramGroupLrs : List ℚ
  deriving DecidableEq

/-- Round-half-to-even of a rational to an integer, the tie-breaking rule
of Python round. -/
def roundHalfEven (q : ℚ) : Int :=
  let f := ⌊q⌋
  let frac := q - (f : ℚ)
  if frac < 1 / 2 then f
  else if 1 / 2 < frac then f + 1
  else if f % 2 = 0 then f else f + 1

/-- Python round(x, 10), the fixed 10-decimal-digit rounding applied to
warm-up values. -/
def round10 (q : ℚ) : ℚ :=
  (roundHalfEven (q * 10 ^ 10) : ℚ) / 10 ^ 10

/-- Element k (0-indexed) of torch.linspace(start, stop, steps): for a
single step the tensor is [start]; otherwise the k-th element is
start + k * (stop - start) / (steps - 1). -/
def linspaceElem (start stop : ℚ) (steps k : Nat) : ℚ :=
  if steps ≤ 1 then start
  else start + (k : ℚ) * (stop - start) / ((steps : ℚ) - 1)

/-- The lr value the body of `AlphaFoldLRScheduler.__call__` computes for
a 1-based iteration (lr_scheduler.py lines 58-65), with the warm-up
tensor `_warmup_linspace` built as in `__init__` lines 49-54. -/
def computeLrValue (s : AlphaFoldLRScheduler) (iteration : Nat) : ℚ :=
  if iteration ≤ s.warmup_lr_length then
    round10 (linspaceElem (s.init_lr / ((max s.warmup_lr_length 1 : Nat) : ℚ))
      s.init_lr s.warmup_lr_length (iteration - 1))
  else if iteration ≤ s.init_lr_length then s.init_lr
  else s.final_lr

/-- Translation of `AlphaFoldLRScheduler.__call__` (lines 57-73): compute
the value for the iteration and write it into every parameter group only
if it differs from the previous call, recording it as the new
previous value. -/
def schedulerCall (s : AlphaFoldLRScheduler) (st : LRSchedulerState)
    (iteration : Nat) : LRSchedulerState :=
  let lrValue := computeLrValue s iteration
  if st.prevLrValue = some lrValue then st
  else { prevLrValue := some lrValue
         paramGroupLrs := set_learning_rate st.paramGroupLrs lrValue }

/-! ## Validation cycle (train.py, validation, lines 344-377) -/

/-- Mode of a torch module: set by the `eval` and `train` calls. -/
inductive Mode where
  | trainMode
  | evalMode
  deriving DecidableEq

/-- The per-sample body of the validation loop: each entry of the input
list is the outcome of one pass through lines 353-375 (a computed lddt_ca
metric, or an exception raised anywhere in the body).  Python exception
semantics: the first error aborts the loop and propagates. -/
def valLoopMetrics : List (Except String ℚ) → Except String (List ℚ)
  | [] => Except.ok []
  | b :: rest =>
    match b with
    | Except.error e => Except.error e
    | Except.ok m =>
      match valLoopMetrics rest with
      | Except.error e => Except.error e
      | Except.ok ms => Except.ok (m :: ms)

/-- Translation of `validation`: `alphafold.eval()` on entry (line 349),
the per-sample loop, then `alphafold.train()` (line 376) and the return.
The function returns the mode of the model when control leaves the
function together with the normal or exceptional result.  There is no
try/finally in the source: an exception propagates before the
`alphafold.train()` statement is reached, so the mode stays `evalMode`
on the error path. -/
def validation_run (batchResults : List (Except String ℚ)) :
    Mode × Except String (List ℚ) :=
  let mode := Mode.evalMode
  match valLoopMetrics batchResults with
  | Except.error e => (mode, Except.error e)
  | Except.ok ms => (Mode.trainMode, Except.ok ms)

/-! ## RNG bracketing (train.py, create_alphafold_module, lines 284-299) -/

/-- The three global RNG states the function saves and restores: the
NumPy global state, the torch CPU state, and the per-device CUDA states
(indexed by device ordinal). -/
structure RngState where
  numpyState : Nat
  torchCpuState : Nat
  cudaStates : Nat → Nat

/-- Translation of `create_alphafold_module`: save the NumPy state, the
torch CPU state and the CUDA state of the target device; seed NumPy with
seed % NUMPY_SEED_MODULUS and torch with seed (torch.manual_seed seeds
the CPU generator and the generator of every CUDA device); construct the
module, which may consume any of the seeded generators (`initModel` is
the arbitrary state consumption of `AlphaFold(config)` plus
`alphafold.to(device)`); then restore the CUDA state of the target
device, the torch CPU state and the NumPy state, in that order.  The
concrete seeding functions of the two libraries are abstract parameters;
the claim holds for all of them. -/
def create_alphafold_module {Model : Type}
    (initModel : RngState → Model × RngState)
    (seedNumpyFn seedTorchFn : Nat → Nat)
    (device seed : Nat) (s : RngState) : Model × RngState :=
  let numpy_random_state := s.numpyState
  let torch_rng_state := s.torchCpuState
  let torch_cuda_rng_state := s.cudaStates device
  let s1 : RngState := { s with numpyState := seedNumpyFn (seed % 2 ^ 32) }
  let s2 : RngState :=
    { s1 with torchCpuState := seedTorchFn seed, cudaStates := fun _ => seedTorchFn seed }
  let ms := initModel s2
  let s3 : RngState := { ms.2 with
    cudaStates := fun d => if d = device then torch_cuda_rng_state else ms.2.cudaStates d }
  let s4 : RngState := { s3 with torchCpuState := torch_rng_state }
  let s5 : RngState := { s4 with numpyState := numpy_random_state }
  (ms.1, s5)

/-! ## Training loop (train.py, training, lines 733-961)

The loop body is embedded as a trace of the effectful statements the
claims are about, in the order the source executes them.  Data-dependent
inputs that come from external collaborators are oracle fields of the
configuration: `gatheredMetrics i` is the per-sample lddt_ca list that
the coordinator holds after the gather of the validation at iteration
`i` (after `dist_gather_val_metrics` when distributed, the local list
otherwise). -/

/-- One effectful statement of the loop body. -/
inductive TrainEvent where
  | resumeLatest (numPrevIters : Nat)
  | seedForward (iteration : Nat)
  | fetchBatch
  | scaleLoss (denom : Nat)
  | zeroGrad
  | backward
  | clipGrad (maxNorm : ℚ)
  | lrSchedulerApply (iteration : Nat)
  | optimizerStep
  | swaUpdate
  | reduceLossesAvg
  | validationRun (iteration : Nat)
  | gatherValMetrics (iteration : Nat)
  | broadcastStopFlag (flag : Bool)
  | saveCheckpoint (iteration : Nat) (isValidation : Bool) (valMetric : Option ℚ)
  | breakLoop (iteration : Nat)
  deriving DecidableEq

/-- Configuration visible to the loop: CLI arguments, alphafold-config
fields, the process topology, and the oracle for the externally computed
validation metrics. -/
structure LoopConfig where
  numTrainIters : Nat
  valEveryIters : Nat
  checkpointEveryIters : Int
  gradientAccumulationIters : Nat
  gradientClipping : Bool
  clipGradMaxNorm : ℚ
  swaEnabled : Bool
  isLoggingEnabled : Bool
  isMainProcess : Bool
  distributed : Bool
  targetAvgLddtCa : ℚ
  validationSetSize : Nat
  gatheredMetrics : Nat → List ℚ

/-- Arithmetic mean used for the aggregated validation metric
(pandas mean over the lddt_ca column, line 894). -/
def meanQ (xs : List ℚ) : ℚ := xs.sum / (xs.length : ℚ)

/-- The early-stop condition the coordinator evaluates at line 918:
the aggregated mean metric has reached the configured target. -/
def stopConditionMet (cfg : LoopConfig) (i : Nat) : Bool :=
  decide (cfg.targetAvgLddtCa ≤ meanQ (cfg.gatheredMetrics i))

/-- Local value of stop_training_flag before the broadcast (lines
917-923): ones on the coordinator when the target is reached, zeros
otherwise, and the zero default on every non-coordinator process. -/
def preBroadcastStopFlag (cfg : LoopConfig) (i : Nat) : Bool :=
  cfg.isMainProcess && stopConditionMet cfg i

/-- Value of stop_training_flag after line 925: the broadcast replaces
the local value with the coordinator value on every process when
distributed; without a distributed context the local value stands. -/
def broadcastStopFlagValue (cfg : LoopConfig) (i : Nat) : Bool :=
  if cfg.distributed then stopConditionMet cfg i
  else preBroadcastStopFlag cfg i

/-- Events of the gradient-accumulation part of the body, lines 752-813:
per-iteration seed, batch fetch, loss scaling by the accumulation length
(line 773), conditional zero_grad (lines 776-777), backward (line 778),
and the group-end block (lines 780-796) of optional clipping, scheduler
application, optimizer step and conditional SWA update, then the
loss reduction of the logging path (lines 799-807). -/
def trainPhaseEvents (cfg : LoopConfig) (i : Nat) : List TrainEvent :=
  [TrainEvent.seedForward i, TrainEvent.fetchBatch,
   TrainEvent.scaleLoss cfg.gradientAccumulationIters]
  ++ (if (i - 1) % cfg.gradientAccumulationIters = 0 then [TrainEvent.zeroGrad] else [])
  ++ [TrainEvent.backward]
  ++ (if i % cfg.gradientAccumulationIters = 0 then
        (if cfg.gradientClipping then [TrainEvent.clipGrad cfg.clipGradMaxNorm] else [])
        ++ [TrainEvent.lrSchedulerApply i, TrainEvent.optimizerStep]
        ++ (if cfg.swaEnabled then [TrainEvent.swaUpdate] else [])
      else [])
  ++ (if cfg.isLoggingEnabled && cfg.distributed then [TrainEvent.reduceLossesAvg] else [])

/-- Events of the validation block entry, lines 861-890: the validation
loop itself and, when distributed, the gather of the per-sample metrics
onto the coordinator. -/
def valPhaseEvents (cfg : LoopConfig) (i : Nat) : List TrainEvent :=
  [TrainEvent.validationRun i]
  ++ (if cfg.distributed then [TrainEvent.gatherValMetrics i] else [])

/-- The checkpoint block, lines 936-953: only the coordinator saves, only
when checkpointing is enabled and the iteration is on the checkpoint
cadence; a validation iteration tags the checkpoint and attaches the
aggregated metric. -/
def checkpointEvents (cfg : LoopConfig) (i : Nat) (isVal : Bool)
    (metric : Option ℚ) : List TrainEvent :=
  if cfg.isMainProcess ∧ 0 < cfg.checkpointEveryIters
      ∧ (i : Int) % cfg.checkpointEveryIters = 0 then
    [TrainEvent.saveCheckpoint i isVal metric]
  else []

/-- Validation, broadcast, checkpoint and break part of one iteration of
the loop body, in source order: if the iteration closes a train-val
cycle, the validation block — which on the coordinator stops at the
count assert of line 896 when the gathered size disagrees with the
validation set — followed by the broadcast, the checkpoint block and the
conditional break (lines 955-957); a non-validation iteration runs only
the checkpoint block. -/
def controlPhaseEvents (cfg : LoopConfig) (i : Nat) : List TrainEvent :=
  if i % cfg.valEveryIters = 0 then
    valPhaseEvents cfg i
    ++ (if cfg.isMainProcess
          && ((cfg.gatheredMetrics i).length != cfg.validationSetSize) then []
        else
          (if cfg.distributed then
            [TrainEvent.broadcastStopFlag (broadcastStopFlagValue cfg i)]
          else [])
          ++ checkpointEvents cfg i true (some (meanQ (cfg.gatheredMetrics i)))
          ++ (if broadcastStopFlagValue cfg i then [TrainEvent.breakLoop i] else []))
  else checkpointEvents cfg i false none

/-- Trace of one iteration of the loop body: the accumulation phase
followed by the validation-checkpoint-break phase. -/
def iterationEvents (cfg : LoopConfig) (i : Nat) : List TrainEvent :=
  trainPhaseEvents cfg i ++ controlPhaseEvents cfg i

/-- How one iteration ends. -/
inductive IterOutcome where
  | next
  | stop
  | fatal (msg : String)
  deriving DecidableEq

/-- Control outcome of one iteration: the count assert of line 896 is
fatal on the coordinator; a validation iteration whose broadcast flag is
set breaks the loop; every other iteration continues. -/
def iterationOutcome (cfg : LoopConfig) (i : Nat) : IterOutcome :=
  if i % cfg.valEveryIters = 0 then
    if cfg.isMainProcess
        && ((cfg.gatheredMetrics i).length != cfg.validationSetSize) then
      IterOutcome.fatal "assert val_size == len(validation_dataset)"
    else if broadcastStopFlagValue cfg i then IterOutcome.stop
    else IterOutcome.next
  else IterOutcome.next

/-- How the whole loop ends. -/
inductive LoopExit where
  | exhausted
  | earlyStop (iteration : Nat)
  | fatal (iteration : Nat) (msg : String)
  deriving DecidableEq

/-- Run the loop over the given iteration numbers, collecting the trace
of every executed iteration, stopping at a break or a fatal assert. -/
def runIters (cfg : LoopConfig) : List Nat → List (Nat × List TrainEvent) × LoopExit
  | [] => ([], LoopExit.exhausted)
  | i :: rest =>
    match iterationOutcome cfg i with
    | IterOutcome.next =>
      ((i, iterationEvents cfg i) :: (runIters cfg rest).1, (runIters cfg rest).2)
    | IterOutcome.stop => ([(i, iterationEvents cfg i)], LoopExit.earlyStop i)
    | IterOutcome.fatal m => ([(i, iterationEvents cfg i)], LoopExit.fatal i m)

/-- Result of the part of `training` from the resume call onward. -/
structure TrainingRun where
  setupEvents : List TrainEvent
  iterations : List (Nat × List TrainEvent)
  exit : LoopExit

/-- Modelled from the spec: `resume_from_latest_checkpoint` lives in
`openfold/checkpoint_utils.py`, which is not part of the sources; per the
spec it locates the checkpoint with the highest iteration number and
returns its iteration, or 0 on a fresh start when no checkpoint exists. -/
def resume_latest (checkpointIterations : List Nat) : Nat :=
  checkpointIterations.foldr max 0

/-- Translation of lines 592-600 and 733-735 of `training`: the resume
call happens once, its result must sit on an accumulation-group boundary
(the assert of line 600, fatal before the loop), and the loop runs the
iterations num_prev_iters + 1 .. num_train_iters. -/
def runTraining (cfg : LoopConfig) (numPrevIters : Nat) : Except String TrainingRun :=
  if numPrevIters % cfg.gradientAccumulationIters = 0 then
    Except.ok
      { setupEvents := [TrainEvent.resumeLatest numPrevIters]
        iterations :=
          (runIters cfg (List.range' (numPrevIters + 1) (cfg.numTrainIters - numPrevIters))).1
        exit :=
          (runIters cfg (List.range' (numPrevIters + 1) (cfg.numTrainIters - numPrevIters))).2 }
  else
    Except.error "assert num_prev_iters % args.gradient_accumulation_iters == 0"

/-! ## Helper lemmas -/

/-- Boolean extensionality through propositional equivalence. -/
theorem bool_eq_of_iff {x y : Bool} (h : (x = true) ↔ (y = true)) : x = y := by
  cases x <;> cases y <;> simp_all

/-- For a warm-up length of at least one step the max with 1 is the
length itself. -/
theorem warmup_max_eq {w : Nat} (hw : 1 ≤ w) : max w 1 = w := by omega

/-! ## Claim C1 -/

/-- C1 (counterexample): with every argument at its CLI default except an
accumulation length of 4, logging is disabled (log_every = -1), so the
claimed invariant exempts it and accepts the config, but `parse_args`
asserts log_every % accumulation == 0 unconditionally and fails, because
(-1) % 4 = 3 under Python remainder semantics.  The claimed equivalence
between validation success and the claimed invariant is therefore false
at this input. -/
theorem claim_C1_counterexample :
    parse_args_cadence_ok defaultLogArgs = false
    ∧ claimCadenceInvariant defaultLogArgs = true := by
  constructor <;> decide

/-- C1 (amended): startup cadence validation succeeds if and only if the
accumulation length is at least 1, all six interval arguments (the
warm-up length and the disabled intervals included) leave remainder 0
modulo the accumulation length, val_every is a multiple of
checkpoint_every when checkpointing is enabled, val_every is a multiple
of log_every when logging is enabled, and checkpoint_every is a multiple
of log_every when both are enabled; in particular the validator rejects
val_every=40 with checkpoint_every=7 and accepts val_every=40,
checkpoint_every=20, accumulation_iters=4, log_every=4. -/
theorem claim_C1_cadence_validator :
    (∀ a : TrainArgs, parse_args_cadence_ok a = amendedCadenceInvariant a)
    ∧ parse_args_cadence_ok rejectExampleArgs = false
    ∧ parse_args_cadence_ok acceptExampleArgs = true := by
  refine ⟨fun a => ?_, by decide, by decide⟩
  apply bool_eq_of_iff
  simp only [parse_args_cadence_ok, amendedCadenceInvariant, List.all_cons, List.all_nil,
    Bool.and_true, Bool.and_eq_true, Bool.or_eq_true, Bool.not_eq_true',
    decide_eq_true_eq, decide_eq_false_iff_not, beq_iff_eq]
  tauto

/-! ## Claim C3 -/

/-- C3: applying the schedule writes the computed rate into every
parameter group only when it differs from the last-applied value: a call
whose computed rate equals the stored previous value leaves the whole
scheduler-and-optimizer state unchanged, a call whose rate differs
writes that rate into every parameter group and records it as the new
previous value, and an immediately repeated call at the same iteration
is always a no-op. -/
theorem claim_C3_lr_write_idempotence (s : AlphaFoldLRScheduler)
    (st : LRSchedulerState) (i : Nat) :
    (st.prevLrValue = some (computeLrValue s i) → schedulerCall s st i = st)
    ∧ (st.prevLrValue ≠ some (computeLrValue s i) →
        (schedulerCall s st i).paramGroupLrs
            = st.paramGroupLrs.map (fun _ => computeLrValue s i)
          ∧ (schedulerCall s st i).prevLrValue = some (computeLrValue s i))
    ∧ schedulerCall s (schedulerCall s st i) i = schedulerCall s st i := by
  refine ⟨fun h => by simp [schedulerCall, h], fun h => ?_, ?_⟩
  · constructor <;> simp [schedulerCall, set_learning_rate, h]
  · by_cases h : st.prevLrValue = some (computeLrValue s i)
    · simp [schedulerCall, h]
    · simp [schedulerCall, set_learning_rate, h]

/-- Scheduler at the CLI defaults base_lr=1e-3 with no warm-up. -/
def schedW : AlphaFoldLRScheduler :=
  { init_lr := 1 / 1000, final_lr := 1 / 20000, warmup_lr_length := 0, init_lr_length := 100 }

/-- State whose previous value already equals the plateau rate. -/
def stSame : LRSchedulerState :=
  { prevLrValue := some (1 / 1000), paramGroupLrs := [1 / 1000, 1 / 1000] }

/-- Fresh state: no previous value, stale parameter groups. -/
def stFresh : LRSchedulerState := { prevLrValue := none, paramGroupLrs := [0, 0] }

/-- C3 (witness): at iteration 5 of the default schedule a repeated call
leaves the state untouched and a first call writes the rate into both
parameter groups and records it. -/
theorem claim_C3_witness :
    schedulerCall schedW stSame 5 = stSame
    ∧ (schedulerCall schedW stFresh 5).paramGroupLrs
        = stFresh.paramGroupLrs.map (fun _ => computeLrValue schedW 5)
    ∧ (schedulerCall schedW stFresh 5).prevLrValue = some (computeLrValue schedW 5) := by
  have hsame : stSame.prevLrValue = some (computeLrValue schedW 5) := by
    simp [stSame, schedW, computeLrValue]
  refine ⟨(claim_C3_lr_write_idempotence schedW stSame 5).1 hsame,
    ((claim_C3_lr_write_idempotence schedW stFresh 5).2.1 (by decide)).1,
    ((claim_C3_lr_write_idempotence schedW stFresh 5).2.1 (by decide)).2⟩

/-! ## Claim C4 -/

/-- Scheduler on which the exact-endpoint reading of the claim fails:
init_lr = 1 with three warm-up steps. -/
def schedCx : AlphaFoldLRScheduler :=
  { init_lr := 1, final_lr := 0, warmup_lr_length := 3, init_lr_length := 5 }

/-- C4 (counterexample): at iteration 1 the claim asserts the rate is
exactly init_lr/warmup_length; the code rounds the warm-up value to 10
decimal digits, and with init_lr = 1, warmup_length = 3 the computed
rate is 0.3333333333, not 1/3. -/
theorem claim_C4_counterexample :
    computeLrValue schedCx 1 ≠ schedCx.init_lr / (schedCx.warmup_lr_length : ℚ) := by
  have hfloor : ⌊((1 : ℚ) / 3 * 10 ^ 10)⌋ = 3333333333 := by
    rw [Int.floor_eq_iff]
    norm_num
  unfold computeLrValue schedCx
  norm_num [linspaceElem, round10, roundHalfEven, hfloor]

/-- C4 (amended): the schedule is the three-segment piecewise function of
the 1-based iteration (for a schedule whose warm-up does not outlast the
plateau): on the warm-up segment it is the linear interpolation from
init_lr/max(warmup_length,1) to init_lr rounded to 10 decimal digits —
so at iteration 1 the rate is round10(init_lr/warmup_length) and at
iteration warmup_length it is round10(init_lr) — on the plateau it is
exactly init_lr, and past the plateau it is exactly final_lr. -/
theorem claim_C4_lr_piecewise (s : AlphaFoldLRScheduler) (i : Nat)
    (hi : 1 ≤ i) (hwp : s.warmup_lr_length ≤ s.init_lr_length) :
    (i ≤ s.warmup_lr_length →
        computeLrValue s i
          = round10 (s.init_lr / ((max s.warmup_lr_length 1 : Nat) : ℚ)
              + ((i : ℚ) - 1)
                * (s.init_lr - s.init_lr / ((max s.warmup_lr_length 1 : Nat) : ℚ))
                / ((s.warmup_lr_length : ℚ) - 1)))
    ∧ (s.warmup_lr_length < i → i ≤ s.init_lr_length → computeLrValue s i = s.init_lr)
    ∧ (s.init_lr_length < i → computeLrValue s i = s.final_lr)
    ∧ (1 ≤ s.warmup_lr_length →
        computeLrValue s 1 = round10 (s.init_lr / (s.warmup_lr_length : ℚ)))
    ∧ (1 ≤ s.warmup_lr_length →
        computeLrValue s s.warmup_lr_length = round10 s.init_lr) := by
  refine ⟨?_, ?_, ?_, ?_, ?_⟩
  · intro hw
    unfold computeLrValue
    rw [if_pos hw]
    congr 1
    unfold linspaceElem
    by_cases h1 : s.warmup_lr_length ≤ 1
    · have hw1 : s.warmup_lr_length = 1 := le_antisymm h1 (le_trans hi hw)
      have hi1 : i = 1 := le_antisymm (hw.trans h1) hi
      rw [if_pos h1, hw1, hi1]
      norm_num
    · rw [if_neg h1]
      have hcast : ((i - 1 : Nat) : ℚ) = (i : ℚ) - 1 := by
        have h := Nat.cast_sub (R := ℚ) hi
        simpa using h
      rw [hcast]
  · intro hlt hle
    unfold computeLrValue
    rw [if_neg (by omega), if_pos hle]
  · intro hlt
    unfold computeLrValue
    rw [if_neg (by omega), if_neg (by omega)]
  · intro hw
    unfold computeLrValue
    rw [if_pos hw, warmup_max_eq hw]
    congr 1
    unfold linspaceElem
    by_cases h1 : s.warmup_lr_length ≤ 1
    · rw [if_pos h1]
    · rw [if_neg h1]
      norm_num
  · intro hw
    unfold computeLrValue
    rw [if_pos (le_refl s.warmup_lr_length), warmup_max_eq hw]
    congr 1
    unfold linspaceElem
    by_cases h1 : s.warmup_lr_length ≤ 1
    · have hw1 : s.warmup_lr_length = 1 := le_antisymm h1 hw
      rw [if_pos h1, hw1]
      norm_num
    · rw [if_neg h1]
      have h2 : 2 ≤ s.warmup_lr_length := by omega
      have hne : ((s.warmup_lr_length : ℚ) - 1) ≠ 0 := by
        have h2q : (2 : ℚ) ≤ (s.warmup_lr_length : ℚ) := by exact_mod_cast h2
        linarith
      have hcast : ((s.warmup_lr_length - 1 : Nat) : ℚ) = (s.warmup_lr_length : ℚ) - 1 := by
        have h := Nat.cast_sub (R := ℚ) hw
        simpa using h
      rw [hcast, mul_div_cancel_left₀ _ hne]
      ring

/-- Small schedule with two warm-up steps and a plateau through
iteration 4, for the C4 witness. -/
def schedW4 : AlphaFoldLRScheduler :=
  { init_lr := 1 / 10, final_lr := 1 / 100, warmup_lr_length := 2, init_lr_length := 4 }

/-- C4 (witness): plateau value at iteration 3, tail value at iteration
5, and the two rounded warm-up endpoints, all on the concrete
two-step-warm-up schedule. -/
theorem claim_C4_witness :
    computeLrValue schedW4 3 = schedW4.init_lr
    ∧ computeLrValue schedW4 5 = schedW4.final_lr
    ∧ computeLrValue schedW4 1 = round10 (schedW4.init_lr / (schedW4.warmup_lr_length : ℚ))
    ∧ computeLrValue schedW4 2 = round10 schedW4.init_lr := by
  refine ⟨(claim_C4_lr_piecewise schedW4 3 (by decide) (by decide)).2.1 (by decide) (by decide),
    (claim_C4_lr_piecewise schedW4 5 (by decide) (by decide)).2.2.1 (by decide),
    (claim_C4_lr_piecewise schedW4 1 (by decide) (by decide)).2.2.2.1 (by decide),
    (claim_C4_lr_piecewise schedW4 2 (by decide) (by decide)).2.2.2.2 (by decide)⟩

/-! ## Claim C7 -/

/-- C7 (counterexample): an exception raised by the first validation
sample propagates out of `validation` before the `alphafold.train()`
statement of line 376 is reached, so the model is still in evaluation
mode when control leaves the function, refuting the claimed guarantee
for exceptional executions. -/
theorem claim_C7_counterexample :
    (validation_run [Except.error "compute step raised"]).1 ≠ Mode.trainMode := by
  decide

/-- C7 (amended): the validation cycle switches the model to evaluation
mode on entry and restores training mode on normal exit; if an error
occurs mid-cycle the error propagates and the model is left in
evaluation mode, because the restoration statement is only reached on
the normal path. -/
theorem claim_C7_mode_restoration (batchResults : List (Except String ℚ)) :
    (∀ ms, valLoopMetrics batchResults = Except.ok ms →
        (validation_run batchResults).1 = Mode.trainMode)
    ∧ (∀ e, valLoopMetrics batchResults = Except.error e →
        (validation_run batchResults).1 = Mode.evalMode) := by
  constructor
  · intro ms h
    unfold validation_run
    rw [h]
  · intro e h
    unfold validation_run
    rw [h]

/-- C7 (witness): a one-sample cycle that succeeds ends in training mode
and a one-sample cycle that raises ends in evaluation mode. -/
theorem claim_C7_witness :
    (validation_run [Except.ok (1 : ℚ)]).1 = Mode.trainMode
    ∧ (validation_run [Except.error "oom"]).1 = Mode.evalMode :=
  ⟨(claim_C7_mode_restoration [Except.ok 1]).1 [1] rfl,
   (claim_C7_mode_restoration [Except.error "oom"]).2 "oom" rfl⟩

/-! ## Claim C9 -/

/-- C9: `create_alphafold_module` restores the NumPy global state, the
torch CPU state and the CUDA state of the target device to their values
from before the call, for every seed, device, seeding function and model
constructor, even though it seeds all three generators from its seed
argument to build the module. -/
theorem claim_C9_rng_frame {Model : Type} (initModel : RngState → Model × RngState)
    (seedNumpyFn seedTorchFn : Nat → Nat) (device seed : Nat) (s : RngState) :
    ((create_alphafold_module initModel seedNumpyFn seedTorchFn device seed s).2.numpyState
        = s.numpyState)
    ∧ ((create_alphafold_module initModel seedNumpyFn seedTorchFn device seed s).2.torchCpuState
        = s.torchCpuState)
    ∧ ((create_alphafold_module initModel seedNumpyFn seedTorchFn device seed s).2.cudaStates device
        = s.cudaStates device) := by
  unfold create_alphafold_module
  simp

/-! ## Claim C2 -/

/-- Classifier for the optimizer-facing statements of an iteration. -/
def isOptimizerAction : TrainEvent → Bool
  | TrainEvent.scaleLoss _ => true
  | TrainEvent.zeroGrad => true
  | TrainEvent.backward => true
  | TrainEvent.clipGrad _ => true
  | TrainEvent.lrSchedulerApply _ => true
  | TrainEvent.optimizerStep => true
  | TrainEvent.swaUpdate => true
  | _ => false

/-- The validation, broadcast, checkpoint and break phase emits no
optimizer-facing event. -/
theorem controlPhase_filter_opt (cfg : LoopConfig) (i : Nat) :
    (controlPhaseEvents cfg i).filter isOptimizerAction = [] := by
  simp only [controlPhaseEvents, valPhaseEvents, checkpointEvents,
    apply_ite (List.filter isOptimizerAction), List.filter_append]
  simp [isOptimizerAction]

/-- Optimizer-facing events of the accumulation phase, in order. -/
theorem trainPhase_filter_opt (cfg : LoopConfig) (i : Nat) :
    (trainPhaseEvents cfg i).filter isOptimizerAction
      = [TrainEvent.scaleLoss cfg.gradientAccumulationIters]
        ++ (if (i - 1) % cfg.gradientAccumulationIters = 0 then [TrainEvent.zeroGrad] else [])
        ++ [TrainEvent.backward]
        ++ (if i % cfg.gradientAccumulationIters = 0 then
              (if cfg.gradientClipping then [TrainEvent.clipGrad cfg.clipGradMaxNorm] else [])
              ++ [TrainEvent.lrSchedulerApply i, TrainEvent.optimizerStep]
              ++ (if cfg.swaEnabled then [TrainEvent.swaUpdate] else [])
            else []) := by
  simp only [trainPhaseEvents, apply_ite (List.filter isOptimizerAction), List.filter_append]
  simp [isOptimizerAction]

/-- C2: in every iteration the optimizer-facing statements are, in
order: the loss scaling by the accumulation length, a gradient zeroing
exactly when (i-1) mod accumulation = 0, the backward accumulation, and
exactly at group boundaries (i mod accumulation = 0) the clip (when
configured), the LR-schedule application, the optimizer step, and the
SWA update (when enabled); at non-boundary iterations none of the four
boundary actions occur. -/
theorem claim_C2_accumulation_semantics (cfg : LoopConfig) (i : Nat) :
    (iterationEvents cfg i).filter isOptimizerAction
      = [TrainEvent.scaleLoss cfg.gradientAccumulationIters]
        ++ (if (i - 1) % cfg.gradientAccumulationIters = 0 then [TrainEvent.zeroGrad] else [])
        ++ [TrainEvent.backward]
        ++ (if i % cfg.gradientAccumulationIters = 0 then
              (if cfg.gradientClipping then [TrainEvent.clipGrad cfg.clipGradMaxNorm] else [])
              ++ [TrainEvent.lrSchedulerApply i, TrainEvent.optimizerStep]
              ++ (if cfg.swaEnabled then [TrainEvent.swaUpdate] else [])
            else []) := by
  unfold iterationEvents
  rw [List.filter_append, controlPhase_filter_opt, List.append_nil, trainPhase_filter_opt]

/-! ## Loop-runner lemmas -/

/-- The iteration numbers a run executes are an initial segment of the
iterations it was given. -/
theorem runIters_map_fst_start (cfg : LoopConfig) (l : List Nat) :
    ∃ t, ((runIters cfg l).1.map Prod.fst) ++ t = l := by
  induction l with
  | nil => exact ⟨[], rfl⟩
  | cons i rest ih =>
    cases hstep : iterationOutcome cfg i with
    | next =>
      obtain ⟨t, ht⟩ := ih
      exact ⟨t, by simp [runIters, hstep, ht]⟩
    | stop => exact ⟨rest, by simp [runIters, hstep]⟩
    | fatal m => exact ⟨rest, by simp [runIters, hstep]⟩

/-- A run that exits by exhaustion executed every given iteration. -/
theorem runIters_exhausted_full (cfg : LoopConfig) (l : List Nat) :
    (runIters cfg l).2 = LoopExit.exhausted →
    (runIters cfg l).1.map Prod.fst = l := by
  induction l with
  | nil => intro _; rfl
  | cons i rest ih =>
    intro h
    cases hstep : iterationOutcome cfg i with
    | next =>
      have h2 : (runIters cfg rest).2 = LoopExit.exhausted := by
        simpa [runIters, hstep] using h
      simp [runIters, hstep, ih h2]
    | stop => simp [runIters, hstep] at h
    | fatal m => simp [runIters, hstep] at h

/-- Two configurations whose iteration outcomes agree pointwise execute
the same iteration numbers and exit the same way. -/
theorem runIters_congr_outcome (cfg cfg2 : LoopConfig) (l : List Nat)
    (h : ∀ i, iterationOutcome cfg2 i = iterationOutcome cfg i) :
    ((runIters cfg2 l).1.map Prod.fst = (runIters cfg l).1.map Prod.fst)
    ∧ (runIters cfg2 l).2 = (runIters cfg l).2 := by
  induction l with
  | nil => exact ⟨rfl, rfl⟩
  | cons i rest ih =>
    cases hstep : iterationOutcome cfg i <;>
      simp [runIters, hstep, h i, ih.1, ih.2]

/-- A run free of fatal outcomes either exhausts its iterations or
breaks at an iteration whose outcome is a stop. -/
theorem runIters_exit_characterization (cfg : LoopConfig) (l : List Nat)
    (hnf : ∀ i, i ∈ l → ∀ m, iterationOutcome cfg i ≠ IterOutcome.fatal m) :
    (runIters cfg l).2 = LoopExit.exhausted
    ∨ ∃ i, (runIters cfg l).2 = LoopExit.earlyStop i
        ∧ iterationOutcome cfg i = IterOutcome.stop := by
  induction l with
  | nil => exact Or.inl rfl
  | cons j rest ih =>
    cases hstep : iterationOutcome cfg j with
    | next =>
      rcases ih (fun i hi m => hnf i (List.mem_cons_of_mem _ hi) m) with h | ⟨i, he, hs⟩
      · exact Or.inl (by simpa [runIters, hstep] using h)
      · exact Or.inr ⟨i, by simpa [runIters, hstep] using he, hs⟩
    | stop => exact Or.inr ⟨j, by simp [runIters, hstep], hstep⟩
    | fatal m => exact absurd hstep (hnf j (List.mem_cons_self _ _) m)

/-- A stop outcome happens only at a validation iteration whose
post-broadcast flag is set. -/
theorem iterationOutcome_stop (cfg : LoopConfig) (i : Nat)
    (h : iterationOutcome cfg i = IterOutcome.stop) :
    i % cfg.valEveryIters = 0 ∧ broadcastStopFlagValue cfg i = true := by
  unfold iterationOutcome at h
  by_cases hv : i % cfg.valEveryIters = 0
  · refine ⟨hv, ?_⟩
    rw [if_pos hv] at h
    by_cases hm : (cfg.isMainProcess
        && ((cfg.gatheredMetrics i).length != cfg.validationSetSize)) = true
    · rw [if_pos hm] at h
      exact absurd h (by simp)
    · rw [if_neg hm] at h
      by_cases hf : broadcastStopFlagValue cfg i = true
      · exact hf
      · rw [if_neg hf] at h
        exact absurd h (by simp)
  · rw [if_neg hv] at h
    exact absurd h (by simp)

/-- With a matching gather count an iteration never ends fatally. -/
theorem iterationOutcome_not_fatal (cfg : LoopConfig) (i : Nat)
    (hsize : (cfg.gatheredMetrics i).length = cfg.validationSetSize) (m : String) :
    iterationOutcome cfg i ≠ IterOutcome.fatal m := by
  unfold iterationOutcome
  by_cases hv : i % cfg.valEveryIters = 0
  · rw [if_pos hv]
    simp only [hsize, bne_self_eq_false, Bool.and_false, Bool.false_eq_true, if_false]
    split <;> simp
  · rw [if_neg hv]
    simp

/-- With a distributed context and a matching gather count the outcome
of an iteration does not depend on which process runs it. -/
theorem iterationOutcome_isMain_invariant (cfg : LoopConfig) (b : Bool) (i : Nat)
    (hdist : cfg.distributed = true)
    (hsize : (cfg.gatheredMetrics i).length = cfg.validationSetSize) :
    iterationOutcome { cfg with isMainProcess := b } i = iterationOutcome cfg i := by
  unfold iterationOutcome broadcastStopFlagValue stopConditionMet preBroadcastStopFlag
  simp [hdist, hsize]

/-! ## Claim C5 -/

/-- C5: on a fresh start the resume returns 0; a run that gets past
startup called resume exactly once, its resumed iteration sits on an
accumulation boundary, the executed iterations form an initial segment
of num_prev_iters + 1 .. num_train_iters whose first element is
num_prev_iters + 1, a run that exits by exhaustion executed the whole
range, and a resumed iteration off the accumulation boundary is a fatal
error before any loop iteration runs. -/
theorem claim_C5_resume_contract (cfg : LoopConfig) (n : Nat) :
    resume_latest [] = 0
    ∧ (∀ run, runTraining cfg n = Except.ok run →
        run.setupEvents = [TrainEvent.resumeLatest n]
        ∧ n % cfg.gradientAccumulationIters = 0
        ∧ (∃ t, (run.iterations.map Prod.fst) ++ t
            = List.range' (n + 1) (cfg.numTrainIters - n))
        ∧ (∀ p l, run.iterations = p :: l → p.1 = n + 1)
        ∧ (run.exit = LoopExit.exhausted →
            run.iterations.map Prod.fst = List.range' (n + 1) (cfg.numTrainIters - n)))
    ∧ (n % cfg.gradientAccumulationIters ≠ 0 →
        runTraining cfg n
          = Except.error "assert num_prev_iters % args.gradient_accumulation_iters == 0") := by
  refine ⟨rfl, ?_, ?_⟩
  · intro run hrun
    by_cases hc : n % cfg.gradientAccumulationIters = 0
    · unfold runTraining at hrun
      rw [if_pos hc] at hrun
      injection hrun with hrun
      subst hrun
      refine ⟨rfl, hc, runIters_map_fst_start cfg _, ?_, runIters_exhausted_full cfg _⟩
      intro p l hpl
      obtain ⟨t, ht⟩ := runIters_map_fst_start cfg
        (List.range' (n + 1) (cfg.numTrainIters - n))
      have hpl2 : (runIters cfg (List.range' (n + 1) (cfg.numTrainIters - n))).1 = p :: l := hpl
      rw [hpl2] at ht
      cases hm : cfg.numTrainIters - n with
      | zero => rw [hm] at ht; simp at ht
      | succ m =>
        rw [hm, List.range'_succ] at ht
        simp only [List.map_cons, List.cons_append] at ht
        exact (List.cons.injEq _ _ _ _).mp ht |>.1
    · unfold runTraining at hrun
      rw [if_neg hc] at hrun
      exact absurd hrun (by simp)
  · intro hne
    unfold runTraining
    rw [if_neg hne]

/-- Minimal single-process configuration for the loop witnesses. -/
def cfgW5 : LoopConfig :=
  { numTrainIters := 2, valEveryIters := 5, checkpointEveryIters := 0,
    gradientAccumulationIters := 1, gradientClipping := false, clipGradMaxNorm := 0,
    swaEnabled := false, isLoggingEnabled := false, isMainProcess := true,
    distributed := false, targetAvgLddtCa := 1, validationSetSize := 0,
    gatheredMetrics := fun _ => [] }

/-- The same configuration with a two-iteration accumulation group, for
the misaligned-resume branch. -/
def cfgW5b : LoopConfig := { cfgW5 with gradientAccumulationIters := 2 }

/-- The run the aligned witness start produces. -/
def runW5 : TrainingRun :=
  { setupEvents := [TrainEvent.resumeLatest 0],
    iterations := (runIters cfgW5 (List.range' 1 2)).1,
    exit := (runIters cfgW5 (List.range' 1 2)).2 }

/-- C5 (witness): a fresh start resumes at 0, performs the single resume
call, sits on the accumulation boundary, and a resume at iteration 1
with accumulation groups of 2 is rejected with the assert message. -/
theorem claim_C5_witness :
    resume_latest [] = 0
    ∧ runW5.setupEvents = [TrainEvent.resumeLatest 0]
    ∧ (0 : Nat) % cfgW5.gradientAccumulationIters = 0
    ∧ runTraining cfgW5b 1
        = Except.error "assert num_prev_iters % args.gradient_accumulation_iters == 0" := by
  obtain ⟨h0, hok, herr⟩ := claim_C5_resume_contract cfgW5 0
  obtain ⟨ha, hb, -, -, -⟩ := hok runW5 rfl
  obtain ⟨-, -, herr2⟩ := claim_C5_resume_contract cfgW5b 1
  exact ⟨h0, ha, hb, herr2 (by decide)⟩

/-! ## Claim C6 -/

/-- C6: with a distributed context and matching gather counts, the stop
flag before the broadcast is the zero default on every non-coordinator
process and is the target comparison on the coordinator; the
post-broadcast value every process uses equals the coordinator
condition on every process; every process executes the same iteration
numbers and exits the loop the same way whatever its rank; and the loop
exits only by exhausting the iteration range or by an early stop at a
validation iteration whose aggregated mean metric reached the target. -/
theorem claim_C6_broadcast_stop (cfg : LoopConfig) (n : Nat)
    (hdist : cfg.distributed = true)
    (hsize : ∀ i, (cfg.gatheredMetrics i).length = cfg.validationSetSize) :
    (cfg.isMainProcess = false → ∀ i, preBroadcastStopFlag cfg i = false)
    ∧ (cfg.isMainProcess = true → ∀ i, preBroadcastStopFlag cfg i
        = decide (cfg.targetAvgLddtCa ≤ meanQ (cfg.gatheredMetrics i)))
    ∧ (∀ b i, broadcastStopFlagValue { cfg with isMainProcess := b } i
        = stopConditionMet cfg i)
    ∧ (∀ b, ((runIters { cfg with isMainProcess := b }
              (List.range' (n + 1) (cfg.numTrainIters - n))).1.map Prod.fst
            = (runIters cfg (List.range' (n + 1) (cfg.numTrainIters - n))).1.map Prod.fst)
          ∧ (runIters { cfg with isMainProcess := b }
              (List.range' (n + 1) (cfg.numTrainIters - n))).2
            = (runIters cfg (List.range' (n + 1) (cfg.numTrainIters - n))).2)
    ∧ ((runIters cfg (List.range' (n + 1) (cfg.numTrainIters - n))).2 = LoopExit.exhausted
        ∨ ∃ i, (runIters cfg (List.range' (n + 1) (cfg.numTrainIters - n))).2
              = LoopExit.earlyStop i
            ∧ i % cfg.valEveryIters = 0 ∧ stopConditionMet cfg i = true) := by
  refine ⟨?_, ?_, ?_, ?_, ?_⟩
  · intro hm i
    unfold preBroadcastStopFlag
    rw [hm]
    rfl
  · intro hm i
    unfold preBroadcastStopFlag stopConditionMet
    rw [hm]
    simp
  · intro b i
    unfold broadcastStopFlagValue stopConditionMet
    simp [hdist]
  · intro b
    exact runIters_congr_outcome cfg _ _
      (fun i => iterationOutcome_isMain_invariant cfg b i hdist (hsize i))
  · rcases runIters_exit_characterization cfg _
      (fun i _ m => iterationOutcome_not_fatal cfg i (hsize i) m) with h | ⟨i, he, hs⟩
    · exact Or.inl h
    · obtain ⟨h1, h2⟩ := iterationOutcome_stop cfg i hs
      refine Or.inr ⟨i, he, h1, ?_⟩
      unfold broadcastStopFlagValue at h2
      rw [if_pos hdist] at h2
      exact h2

/-- Distributed non-coordinator configuration for the C6 witness. -/
def cfgW6 : LoopConfig :=
  { numTrainIters := 4, valEveryIters := 2, checkpointEveryIters := 0,
    gradientAccumulationIters := 1, gradientClipping := false, clipGradMaxNorm := 0,
    swaEnabled := false, isLoggingEnabled := false, isMainProcess := false,
    distributed := true, targetAvgLddtCa := 2, validationSetSize := 1,
    gatheredMetrics := fun _ => [1] }

/-- C6 (witness): on the concrete distributed config the non-coordinator
default is zero, the coordinator and a non-coordinator run the same
iterations and exit identically, and the exit is exhaustion or a
flagged validation stop. -/
theorem claim_C6_witness :
    preBroadcastStopFlag cfgW6 2 = false
    ∧ broadcastStopFlagValue { cfgW6 with isMainProcess := true } 2 = stopConditionMet cfgW6 2
    ∧ ((runIters { cfgW6 with isMainProcess := true } (List.range' 1 4)).2
        = (runIters cfgW6 (List.range' 1 4)).2)
    ∧ ((runIters cfgW6 (List.range' 1 4)).2 = LoopExit.exhausted
        ∨ ∃ i, (runIters cfgW6 (List.range' 1 4)).2 = LoopExit.earlyStop i
            ∧ i % cfgW6.valEveryIters = 0 ∧ stopConditionMet cfgW6 i = true) := by
  obtain ⟨hzero, -, hbcast, hsame, hexit⟩ :=
    claim_C6_broadcast_stop cfgW6 0 rfl (fun i => rfl)
  exact ⟨hzero rfl 2, hbcast true 2, (hsame true).2, hexit⟩

/-! ## Claim C8 -/

/-- C8: on the coordinator, a validation iteration whose gathered
per-sample count differs from the validation set size ends with the
fatal count assert of line 896, and the run aborts there: the trace of
a loop starting at that iteration is exactly that one iteration with a
fatal exit, whatever iterations were still pending. -/
theorem claim_C8_gather_count (cfg : LoopConfig) (i : Nat) (rest : List Nat)
    (hmain : cfg.isMainProcess = true)
    (hval : i % cfg.valEveryIters = 0)
    (hmismatch : (cfg.gatheredMetrics i).length ≠ cfg.validationSetSize) :
    iterationOutcome cfg i = IterOutcome.fatal "assert val_size == len(validation_dataset)"
    ∧ runIters cfg (i :: rest)
        = ([(i, iterationEvents cfg i)],
           LoopExit.fatal i "assert val_size == len(validation_dataset)") := by
  have hbne : ((cfg.gatheredMetrics i).length != cfg.validationSetSize) = true := by
    simpa using hmismatch
  have h1 : iterationOutcome cfg i
      = IterOutcome.fatal "assert val_size == len(validation_dataset)" := by
    unfold iterationOutcome
    rw [if_pos hval, hmain, hbne]
    simp
  exact ⟨h1, by simp [runIters, h1]⟩

/-- Coordinator configuration whose gather loses every sample. -/
def cfgW8 : LoopConfig :=
  { numTrainIters := 3, valEveryIters := 1, checkpointEveryIters := 0,
    gradientAccumulationIters := 1, gradientClipping := false, clipGradMaxNorm := 0,
    swaEnabled := false, isLoggingEnabled := false, isMainProcess := true,
    distributed := true, targetAvgLddtCa := 1, validationSetSize := 3,
    gatheredMetrics := fun _ => [] }

/-- C8 (witness): with a validation set of size 3 and an empty gather the
first validation iteration is fatal and the remaining iterations never
run. -/
theorem claim_C8_witness :
    iterationOutcome cfgW8 1 = IterOutcome.fatal "assert val_size == len(validation_dataset)"
    ∧ runIters cfgW8 [1, 2, 3]
        = ([(1, iterationEvents cfgW8 1)],
           LoopExit.fatal 1 "assert val_size == len(validation_dataset)") :=
  claim_C8_gather_count cfgW8 1 [2, 3] rfl (by decide) (by decide)

/-! ## Claim C10 -/

/-- Classifier for checkpoint writes and the loop break. -/
def isCheckpointOrBreak : TrainEvent → Bool
  | TrainEvent.saveCheckpoint _ _ _ => true
  | TrainEvent.breakLoop _ => true
  | _ => false

/-- The accumulation phase writes no checkpoint and never breaks. -/
theorem trainPhase_filter_ckpt (cfg : LoopConfig) (i : Nat) :
    (trainPhaseEvents cfg i).filter isCheckpointOrBreak = [] := by
  simp only [trainPhaseEvents, apply_ite (List.filter isCheckpointOrBreak),
    List.filter_append]
  simp [isCheckpointOrBreak]

/-- C10: on the coordinator, at a validation iteration whose aggregated
metric reached the target, with checkpointing enabled and the iteration
on the checkpoint cadence, the iteration breaks the loop and its
checkpoint-or-break events are exactly the save of that iteration —
tagged as a validation checkpoint, carrying the aggregated metric —
followed by the break: the checkpoint is saved before the loop
terminates on the stop flag. -/
theorem claim_C10_checkpoint_before_stop (cfg : LoopConfig) (i : Nat)
    (hmain : cfg.isMainProcess = true)
    (hval : i % cfg.valEveryIters = 0)
    (hsize : (cfg.gatheredMetrics i).length = cfg.validationSetSize)
    (hstop : stopConditionMet cfg i = true)
    (hcpEnabled : 0 < cfg.checkpointEveryIters)
    (hcpDue : (i : Int) % cfg.checkpointEveryIters = 0) :
    iterationOutcome cfg i = IterOutcome.stop
    ∧ (iterationEvents cfg i).filter isCheckpointOrBreak
        = [TrainEvent.saveCheckpoint i true (some (meanQ (cfg.gatheredMetrics i))),
           TrainEvent.breakLoop i] := by
  have hflag : broadcastStopFlagValue cfg i = true := by
    unfold broadcastStopFlagValue preBroadcastStopFlag
    rw [hmain, hstop]
    simp
  have hbne : ((cfg.gatheredMetrics i).length != cfg.validationSetSize) = false := by
    simp [hsize]
  constructor
  · unfold iterationOutcome
    rw [if_pos hval, hbne]
    simp [hflag]
  · unfold iterationEvents
    rw [List.filter_append, trainPhase_filter_ckpt, List.nil_append]
    unfold controlPhaseEvents checkpointEvents valPhaseEvents
    rw [if_pos hval, hbne, hflag]
    have hcond : cfg.isMainProcess = true ∧ 0 < cfg.checkpointEveryIters
        ∧ (i : Int) % cfg.checkpointEveryIters = 0 := ⟨hmain, hcpEnabled, hcpDue⟩
    rw [if_pos hcond]
    simp only [Bool.and_false, Bool.false_eq_true, if_false,
      apply_ite (List.filter isCheckpointOrBreak), List.filter_append]
    simp [isCheckpointOrBreak]

/-- Single-process coordinator that stops at its first iteration with a
due checkpoint. -/
def cfgW10 : LoopConfig :=
  { numTrainIters := 1, valEveryIters := 1, checkpointEveryIters := 1,
    gradientAccumulationIters := 1, gradientClipping := false, clipGradMaxNorm := 0,
    swaEnabled := false, isLoggingEnabled := false, isMainProcess := true,
    distributed := false, targetAvgLddtCa := 0, validationSetSize := 1,
    gatheredMetrics := fun _ => [1] }

/-- C10 (witness): on the concrete config iteration 1 stops the loop and
emits exactly the tagged validation checkpoint followed by the break. -/
theorem claim_C10_witness :
    iterationOutcome cfgW10 1 = IterOutcome.stop
    ∧ (iterationEvents cfgW10 1).filter isCheckpointOrBreak
        = [TrainEvent.saveCheckpoint 1 true (some (meanQ (cfgW10.gatheredMetrics 1))),
           TrainEvent.breakLoop 1] :=
  claim_C10_checkpoint_before_stop cfgW10 1 rfl (by decide) rfl
    (by
      unfold stopConditionMet cfgW10 meanQ
      norm_num)
    (by decide) (by decide)
